import Mathlib

/-!
Shallow embedding of the Express product API in server.js: an in-memory
product catalog with list (filter / search / pagination), fetch-by-id,
create, update, delete and a (shadowed) stats route, behind a logging and
API-key middleware chain. JavaScript-specific behaviour (truthiness,
parseInt, Array.prototype.slice, spread-merge) is modelled explicitly.
-/

namespace ProductApi

/-- A catalog record. Fields follow the object literals in server.js;
description is optional (may be absent on created records). -/
structure Product where
  id : String
  name : String
  description : Option String
  price : Int
  category : String
  inStock : Bool
deriving DecidableEq

/-- Placeholder record used only for out-of-range getD reads, which the
handlers never perform on the paths where findIndex returned an index. -/
def defaultProduct : Product :=
  { id := "", name := "", description := none, price := 0, category := "", inStock := true }

/-- A parsed JSON request body: each recognised field is present or absent,
mirroring destructuring and object spread over req.body. -/
structure Body where
  id : Option String
  name : Option String
  description : Option String
  price : Option Int
  category : Option String
  inStock : Option Bool
deriving DecidableEq

/-- The empty request body. -/
def emptyBody : Body :=
  { id := none, name := none, description := none, price := none, category := none, inStock := none }

/-- Query parameters of GET /api/products; absent parameters are none. -/
structure Query where
  category : Option String
  search : Option String
  page : Option String
  limit : Option String
deriving DecidableEq

/-- The empty query string. -/
def emptyQuery : Query :=
  { category := none, search := none, page := none, limit := none }

/-- HTTP methods used by the API routes. -/
inductive Method where
  | GET
  | POST
  | PUT
  | DELETE
deriving DecidableEq

/-- An inbound HTTP request: method, path segments, the x-api-key header
(none when absent), query parameters and parsed JSON body. -/
structure Request where
  method : Method
  path : List String
  apiKey : Option String
  query : Query
  body : Body
deriving DecidableEq

/-- JavaScript truthiness of a possibly-absent string: undefined and the
empty string are falsy. -/
def truthyOptStr : Option String → Bool
  | none => false
  | some s => !(s == "")

/-- JavaScript truthiness of a possibly-absent number: undefined and 0 are
falsy. -/
def truthyOptNum : Option Int → Bool
  | none => false
  | some n => !(n == 0)

/-- Value of a decimal digit string, as folded up by parseInt. -/
def digitsToNat (ds : List Char) : Nat :=
  ds.foldl (fun a c => a * 10 + (c.toNat - 48)) 0

/-- Digit-consuming core of parseInt: take leading decimal digits, NaN
(none) when there are none. -/
def jsParseIntCore (sign : Int) (cs : List Char) : Option Int :=
  let ds := cs.takeWhile Char.isDigit
  if ds.isEmpty then none else some (sign * (digitsToNat ds : Int))

/-- JavaScript parseInt on a string, radix 10: skip leading whitespace,
optional sign, then leading digits; none models NaN. -/
def jsParseInt (s : String) : Option Int :=
  match s.toList.dropWhile (fun c => c == ' ' || c == '\t' || c == '\n' || c == '\r') with
  | '-' :: rest => jsParseIntCore (-1) rest
  | '+' :: rest => jsParseIntCore 1 rest
  | rest => jsParseIntCore 1 rest

/-- JavaScript subtraction where either operand may be NaN (none). -/
def jsSub : Option Int → Option Int → Option Int
  | some a, some b => some (a - b)
  | _, _ => none

/-- JavaScript multiplication where either operand may be NaN (none). -/
def jsMul : Option Int → Option Int → Option Int
  | some a, some b => some (a * b)
  | _, _ => none

/-- JavaScript addition where either operand may be NaN (none). -/
def jsAdd : Option Int → Option Int → Option Int
  | some a, some b => some (a + b)
  | _, _ => none

/-- Array.prototype.slice index conversion: NaN becomes 0, a negative index
counts from the end clamped at 0, a nonnegative one is clamped at length. -/
def clampIndex (len : Nat) : Option Int → Nat
  | none => 0
  | some k => if k < 0 then ((len : Int) + k).toNat else min k.toNat len

/-- Array.prototype.slice with possibly-NaN start and end arguments. -/
def jsSlice (l : List α) (s e : Option Int) : List α :=
  let a := clampIndex l.length s
  let b := clampIndex l.length e
  (l.drop a).take (b - a)

/-- Does the pattern occur at the head of the text? -/
def headMatches : List Char → List Char → Bool
  | [], _ => true
  | _ :: _, [] => false
  | a :: as, b :: bs => a == b && headMatches as bs

/-- Does the pattern occur anywhere in the text? -/
def occursIn (pat : List Char) : List Char → Bool
  | [] => pat.isEmpty
  | c :: rest => headMatches pat (c :: rest) || occursIn pat rest

/-- String.prototype.includes: sub occurs somewhere in s. -/
def jsIncludes (s sub : String) : Bool :=
  occursIn sub.toList s.toList

/-- String.prototype.toLowerCase, mapped characterwise so that it reduces
on concrete strings. -/
def jsToLower (s : String) : String :=
  String.mk (s.data.map Char.toLower)

/-- Array.prototype.findIndex, with none for the -1 miss result. -/
def findIndex (p : α → Bool) : List α → Option Nat
  | [] => none
  | a :: as => if p a then some 0 else (findIndex p as).map (fun i => i + 1)

/-- The page result object of GET /api/products: page echoes the parsed
page parameter (none models NaN, serialised as null). -/
structure ListResult where
  page : Option Int
  total : Nat
  results : List Product
deriving DecidableEq

/-- Response bodies the server can produce. -/
inductive ResBody where
  | text : String → ResBody
  | product : Product → ResBody
  | page : ListResult → ResBody
  | deleted : String → Product → ResBody
  | stats : List (String × Nat) → ResBody
  | error : String → String → ResBody
deriving DecidableEq

/-- An HTTP response: status code and JSON (or text) body. -/
structure Response where
  status : Nat
  body : ResBody
deriving DecidableEq

/-- The page query parameter after destructuring default 1 and parseInt. -/
def parsedPage (q : Query) : Option Int :=
  match q.page with
  | none => some 1
  | some s => jsParseInt s

/-- The limit query parameter after destructuring default 5 and parseInt. -/
def parsedLimit (q : Query) : Option Int :=
  match q.limit with
  | none => some 5
  | some s => jsParseInt s

/-- The catalog after the two conditional filters of GET /api/products:
category (case-insensitive equality) when truthy, then search
(case-insensitive name substring) when truthy. -/
def filteredProducts (ps : List Product) (q : Query) : List Product :=
  let f1 := if truthyOptStr q.category then
      ps.filter (fun p => jsToLower p.category == jsToLower (q.category.getD ""))
    else ps
  if truthyOptStr q.search then
    f1.filter (fun p => jsIncludes (jsToLower p.name) (jsToLower (q.search.getD "")))
  else f1

/-- The GET /api/products handler body: filter, then paginate with
startIndex = (page-1)*limit and endIndex = startIndex+limit via slice. -/
def listProducts (ps : List Product) (q : Query) : ListResult :=
  let page := parsedPage q
  let limit := parsedLimit q
  let filtered := filteredProducts ps q
  let startIndex := jsMul (jsSub page (some 1)) limit
  let endIndex := jsAdd startIndex limit
  { page := page, total := filtered.length, results := jsSlice filtered startIndex endIndex }

/-- The GET /api/products/:id handler: find by id, 404 when absent. -/
def getProductById (pid : String) (ps : List Product) : Response :=
  match ps.find? (fun p => p.id == pid) with
  | none => ⟨404, ResBody.error "NotFoundError" "Product not found"⟩
  | some p => ⟨200, ResBody.product p⟩

/-- The record the create handler builds: a generated id, the submitted
fields and inStock defaulted to true by nullish coalescing. -/
def newProduct (freshId : String) (b : Body) : Product :=
  { id := freshId, name := b.name.getD "", description := b.description,
    price := b.price.getD 0, category := b.category.getD "",
    inStock := b.inStock.getD true }

/-- The POST /api/products handler: reject when name, price or category is
falsy, otherwise append the new record and return it with status 201. -/
def createProduct (freshId : String) (b : Body) (ps : List Product) : Response × List Product :=
  if !truthyOptStr b.name || !truthyOptNum b.price || !truthyOptStr b.category then
    (⟨400, ResBody.error "ValidationError" "Name, price, and category are required"⟩, ps)
  else
    (⟨201, ResBody.product (newProduct freshId b)⟩, ps ++ [newProduct freshId b])

/-- Object-spread merge of a body onto a record: every field present in the
body overwrites, every absent field keeps the stored value (id included). -/
def mergeProduct (p : Product) (b : Body) : Product :=
  { id := b.id.getD p.id,
    name := b.name.getD p.name,
    description := match b.description with
      | some d => some d
      | none => p.description,
    price := b.price.getD p.price,
    category := b.category.getD p.category,
    inStock := b.inStock.getD p.inStock }

/-- The PUT /api/products/:id handler: 404 when the id is absent, otherwise
replace the record at the found index by the spread-merge and return it. -/
def updateProduct (pid : String) (b : Body) (ps : List Product) : Response × List Product :=
  match findIndex (fun p => p.id == pid) ps with
  | none => (⟨404, ResBody.error "NotFoundError" "Product not found"⟩, ps)
  | some i =>
    let merged := mergeProduct (ps.getD i defaultProduct) b
    (⟨200, ResBody.product merged⟩, ps.set i merged)

/-- The DELETE /api/products/:id handler: 404 when the id is absent,
otherwise splice the record out and return it. -/
def deleteProduct (pid : String) (ps : List Product) : Response × List Product :=
  match findIndex (fun p => p.id == pid) ps with
  | none => (⟨404, ResBody.error "NotFoundError" "Product not found"⟩, ps)
  | some i =>
    (⟨200, ResBody.deleted "Product deleted" (ps.getD i defaultProduct)⟩, ps.eraseIdx i)

/-- One step of the stats accumulation: stats of cat becomes
(stats of cat or 0) + 1, keys kept in first-seen order. -/
def bumpCategory (c : String) : List (String × Nat) → List (String × Nat)
  | [] => [(c, 1)]
  | (k, n) :: rest => if k = c then (k, n + 1) :: rest else (k, n) :: bumpCategory c rest

/-- The GET /api/products/stats handler body: category to count mapping. -/
def statsOf (ps : List Product) : List (String × Nat) :=
  ps.foldl (fun acc p => bumpCategory p.category acc) []

/-- The trailing 404 middleware for unmatched routes. -/
def routeNotFound : Response :=
  ⟨404, ResBody.error "NotFoundError" "Route not found"⟩

/-- GET routes in registration order: the root welcome, the product list,
the :id route, and only then the stats route, which the :id pattern
shadows; anything else falls through to the 404 middleware. -/
def routeGet (q : Query) (ps : List Product) (path : List String) : Response :=
  match path with
  | [] => ⟨200, ResBody.text "Welcome to the Product API! Visit /api/products"⟩
  | ["api", "products"] => ⟨200, ResBody.page (listProducts ps q)⟩
  | ["api", "products", pid] => getProductById pid ps
  | other =>
    if other = ["api", "products", "stats"] then ⟨200, ResBody.stats (statsOf ps)⟩
    else routeNotFound

/-- Route dispatch after the middleware chain, matching server.js route
registration order; freshId is the uuid the create handler would draw. -/
def dispatch (freshId : String) (req : Request) (ps : List Product) : Response × List Product :=
  match req.method with
  | Method.GET => (routeGet req.query ps req.path, ps)
  | Method.POST =>
    match req.path with
    | ["api", "products"] => createProduct freshId req.body ps
    | _ => (routeNotFound, ps)
  | Method.PUT =>
    match req.path with
    | ["api", "products", pid] => updateProduct pid req.body ps
    | _ => (routeNotFound, ps)
  | Method.DELETE =>
    match req.path with
    | ["api", "products", pid] => deleteProduct pid ps
    | _ => (routeNotFound, ps)

/-- The full request pipeline: the API-key middleware rejects any request
whose x-api-key header is not exactly the shared secret before any route
runs; otherwise the request is dispatched. Returns the response and the
catalog after the request. -/
def handleRequest (freshId : String) (req : Request) (ps : List Product) : Response × List Product :=
  if req.apiKey = some "mysecurekey" then dispatch freshId req ps
  else (⟨400, ResBody.error "ValidationError" "Forbidden. Invalid API Key."⟩, ps)

/-- The three records the catalog is seeded with at process start. -/
def seedProducts : List Product :=
  [{ id := "1", name := "Laptop", description := some "High-performance laptop with 16GB RAM",
     price := 1200, category := "electronics", inStock := true },
   { id := "2", name := "Smartphone", description := some "Latest model with 128GB storage",
     price := 800, category := "electronics", inStock := true },
   { id := "3", name := "Coffee Maker", description := some "Programmable coffee maker with timer",
     price := 50, category := "kitchen", inStock := false }]

/-- The combined filter predicate of the listing route, as the spec states
it: the category filter (case-insensitive equality) applies when the
category parameter is truthy, the search filter (case-insensitive name
substring) when the search parameter is truthy. -/
def matchesQueryFilters (q : Query) (p : Product) : Bool :=
  (!truthyOptStr q.category || (jsToLower p.category == jsToLower (q.category.getD ""))) &&
  (!truthyOptStr q.search || jsIncludes (jsToLower p.name) (jsToLower (q.search.getD "")))

/-! Helper lemmas about findIndex, set and slicing. -/

theorem findIndex_eq_none (p : α → Bool) (l : List α) (h : ∀ a ∈ l, p a = false) :
    findIndex p l = none := by
  induction l with
  | nil => rfl
  | cons a as ih =>
    have ha : p a = false := h a (by simp)
    simp [findIndex, ha]
    exact ih fun x hx => h x (by simp [hx])

theorem findIndex_lt_length {p : α → Bool} {l : List α} {i : Nat}
    (h : findIndex p l = some i) : i < l.length := by
  induction l generalizing i with
  | nil => simp [findIndex] at h
  | cons a as ih =>
    rw [findIndex] at h
    by_cases ha : p a
    · rw [if_pos ha] at h
      injection h with h
      subst h
      simp
    · rw [if_neg ha] at h
      obtain ⟨j, hj, hji⟩ := Option.map_eq_some'.mp h
      subst hji
      have hlt := ih hj
      simp only [List.length_cons]
      omega

theorem map_set_getD {α β : Type} (f : α → β) (d : α) (l : List α) (i : Nat) (m : α)
    (h : f m = f (l.getD i d)) : (l.set i m).map f = l.map f := by
  induction l generalizing i with
  | nil => simp
  | cons a as ih =>
    cases i with
    | zero => simp_all [List.getD]
    | succ j =>
      simp only [List.set, List.map]
      rw [ih j (by simpa [List.getD] using h)]

theorem drop_min_length (l : List α) (n : Nat) : l.drop (min n l.length) = l.drop n := by
  rcases le_total n l.length with h | h
  · rw [min_eq_left h]
  · rw [min_eq_right h, List.drop_eq_nil_of_le h, List.drop_eq_nil_of_le le_rfl]

theorem filteredProducts_eq_filter (ps : List Product) (q : Query) :
    filteredProducts ps q = ps.filter (matchesQueryFilters q) := by
  unfold filteredProducts matchesQueryFilters
  cases hc : truthyOptStr q.category <;> cases hs : truthyOptStr q.search <;>
    simp [List.filter_filter, Bool.and_comm]

/-- Claim C7: every request whose x-api-key header is absent or differs
from the shared secret is rejected with 400 ValidationError and the
catalog is left unchanged, before any route handler runs. -/
theorem auth_rejects_invalid_key (freshId : String) (req : Request) (ps : List Product)
    (h : req.apiKey ≠ some "mysecurekey") :
    handleRequest freshId req ps =
      (⟨400, ResBody.error "ValidationError" "Forbidden. Invalid API Key."⟩, ps) := by
  simp [handleRequest, h]

/-- Witness for C7 at a concrete request carrying a wrong key. -/
theorem auth_rejects_invalid_key_witness :
    handleRequest "f" ⟨Method.DELETE, ["api", "products", "1"], some "wrongkey", emptyQuery, emptyBody⟩ seedProducts =
      (⟨400, ResBody.error "ValidationError" "Forbidden. Invalid API Key."⟩, seedProducts) :=
  auth_rejects_invalid_key "f" _ seedProducts (by decide)

/-- Claim C8: for every catalog and every query parameters, including
non-numeric or out-of-range page and limit, the listing route answers 200
with a page result and leaves the catalog unchanged; no error is raised. -/
theorem list_route_never_fails (freshId : String) (q : Query) (b : Body) (ps : List Product) :
    handleRequest freshId ⟨Method.GET, ["api", "products"], some "mysecurekey", q, b⟩ ps =
      (⟨200, ResBody.page (listProducts ps q)⟩, ps) := rfl

/-- Claim C2: when no product has id "stats", GET /api/products/stats is
captured by the :id route and answers 404 Product not found; the stats
handler is never reached. -/
theorem stats_route_shadowed (freshId : String) (q : Query) (b : Body) (ps : List Product)
    (h : ∀ p ∈ ps, p.id ≠ "stats") :
    handleRequest freshId ⟨Method.GET, ["api", "products", "stats"], some "mysecurekey", q, b⟩ ps =
      (⟨404, ResBody.error "NotFoundError" "Product not found"⟩, ps) := by
  have hstep : handleRequest freshId ⟨Method.GET, ["api", "products", "stats"], some "mysecurekey", q, b⟩ ps =
      (getProductById "stats" ps, ps) := rfl
  rw [hstep]
  unfold getProductById
  rw [List.find?_eq_none.mpr]
  intro p hp
  simpa using h p hp

/-- Witness for C2 on the seeded catalog. -/
theorem stats_route_shadowed_witness :
    handleRequest "f" ⟨Method.GET, ["api", "products", "stats"], some "mysecurekey", emptyQuery, emptyBody⟩ seedProducts =
      (⟨404, ResBody.error "NotFoundError" "Product not found"⟩, seedProducts) :=
  stats_route_shadowed "f" emptyQuery emptyBody seedProducts (by decide)

/-- Claim C9: deleting an id that is not in the catalog answers 404
NotFoundError and removes nothing. -/
theorem delete_missing_id_is_noop (freshId : String) (q : Query) (b : Body) (pid : String)
    (ps : List Product) (h : ∀ p ∈ ps, p.id ≠ pid) :
    handleRequest freshId ⟨Method.DELETE, ["api", "products", pid], some "mysecurekey", q, b⟩ ps =
      (⟨404, ResBody.error "NotFoundError" "Product not found"⟩, ps) := by
  have hstep : handleRequest freshId ⟨Method.DELETE, ["api", "products", pid], some "mysecurekey", q, b⟩ ps =
      deleteProduct pid ps := rfl
  rw [hstep]
  unfold deleteProduct
  rw [findIndex_eq_none]
  intro p hp
  simpa using h p hp

/-- Witness for C9 on the seeded catalog and an absent id. -/
theorem delete_missing_id_is_noop_witness :
    handleRequest "f" ⟨Method.DELETE, ["api", "products", "99"], some "mysecurekey", emptyQuery, emptyBody⟩ seedProducts =
      (⟨404, ResBody.error "NotFoundError" "Product not found"⟩, seedProducts) :=
  delete_missing_id_is_noop "f" emptyQuery emptyBody "99" seedProducts (by decide)

/-- Claim C10: an empty category or search parameter is falsy, so the
listing behaves exactly as if the parameter were omitted. -/
theorem empty_filter_params_ignored (freshId : String) (key : Option String) (q : Query)
    (b : Body) (ps : List Product) :
    (handleRequest freshId ⟨Method.GET, ["api", "products"], key, { q with category := some "" }, b⟩ ps =
      handleRequest freshId ⟨Method.GET, ["api", "products"], key, { q with category := none }, b⟩ ps) ∧
    (handleRequest freshId ⟨Method.GET, ["api", "products"], key, { q with search := some "" }, b⟩ ps =
      handleRequest freshId ⟨Method.GET, ["api", "products"], key, { q with search := none }, b⟩ ps) := by
  by_cases hk : key = some "mysecurekey"
  · subst hk
    have h1 : ∀ q2 : Query, handleRequest freshId ⟨Method.GET, ["api", "products"], some "mysecurekey", q2, b⟩ ps =
        (⟨200, ResBody.page (listProducts ps q2)⟩, ps) := fun _ => rfl
    rw [h1, h1, h1, h1]
    constructor
    · simp [listProducts, filteredProducts, parsedPage, parsedLimit, truthyOptStr]
    · simp [listProducts, filteredProducts, parsedPage, parsedLimit, truthyOptStr]
  · constructor <;> simp [handleRequest, hk]

/-! Helper lemmas about the mutating handlers, used for the id invariant. -/

theorem createProduct_state (freshId : String) (b : Body) (ps : List Product) :
    (createProduct freshId b ps).2 = ps ∨
    (createProduct freshId b ps).2 = ps ++ [newProduct freshId b] := by
  unfold createProduct
  split
  · exact Or.inl rfl
  · exact Or.inr rfl

theorem updateProduct_map_id (pid : String) (b : Body) (ps : List Product) (h : b.id = none) :
    (updateProduct pid b ps).2.map Product.id = ps.map Product.id := by
  unfold updateProduct
  cases hfi : findIndex (fun p => p.id == pid) ps with
  | none => rfl
  | some i =>
    exact map_set_getD Product.id defaultProduct ps i _ (by simp [mergeProduct, h])

theorem deleteProduct_map_id_sublist (pid : String) (ps : List Product) :
    ((deleteProduct pid ps).2.map Product.id).Sublist (ps.map Product.id) := by
  unfold deleteProduct
  cases hfi : findIndex (fun p => p.id == pid) ps with
  | none => exact List.Sublist.refl _
  | some i => exact List.Sublist.map Product.id (List.eraseIdx_sublist ps i)

/-- Claim C5: with a valid key, POST /api/products answers 400
ValidationError exactly when name, price or category is missing or falsy;
otherwise it answers 201 with the created record, which carries the
generated id and the submitted fields and is appended to the catalog. -/
theorem post_validates_and_appends (freshId : String) (q : Query) (b : Body) (ps : List Product) :
    (handleRequest freshId ⟨Method.POST, ["api", "products"], some "mysecurekey", q, b⟩ ps =
        ((⟨400, ResBody.error "ValidationError" "Name, price, and category are required"⟩ : Response), ps) ↔
      (truthyOptStr b.name = false ∨ truthyOptNum b.price = false ∨ truthyOptStr b.category = false)) ∧
    (handleRequest freshId ⟨Method.POST, ["api", "products"], some "mysecurekey", q, b⟩ ps =
        ((⟨201, ResBody.product (newProduct freshId b)⟩ : Response), ps ++ [newProduct freshId b]) ↔
      (truthyOptStr b.name = true ∧ truthyOptNum b.price = true ∧ truthyOptStr b.category = true)) ∧
    (newProduct freshId b).id = freshId ∧
    (newProduct freshId b).name = b.name.getD "" ∧
    (newProduct freshId b).description = b.description ∧
    (newProduct freshId b).price = b.price.getD 0 ∧
    (newProduct freshId b).category = b.category.getD "" ∧
    (newProduct freshId b).inStock = b.inStock.getD true := by
  have hstep : handleRequest freshId ⟨Method.POST, ["api", "products"], some "mysecurekey", q, b⟩ ps =
      createProduct freshId b ps := rfl
  simp only [hstep]
  refine ⟨?_, ?_, rfl, rfl, rfl, rfl, rfl, rfl⟩ <;>
    cases hn : truthyOptStr b.name <;> cases hp : truthyOptNum b.price <;>
      cases hc : truthyOptStr b.category <;>
        simp [createProduct, hn, hp, hc, Prod.ext_iff, Response.mk.injEq]

/-- Claim C6: a PUT on an existing product stores and returns the
spread-merge of the body onto the stored record: present fields overwrite,
absent fields keep their pre-update values. -/
theorem put_merges_onto_existing (freshId : String) (q : Query) (b : Body) (pid : String)
    (ps : List Product) (i : Nat) (h : findIndex (fun p => p.id == pid) ps = some i) :
    handleRequest freshId ⟨Method.PUT, ["api", "products", pid], some "mysecurekey", q, b⟩ ps =
      ((⟨200, ResBody.product (mergeProduct (ps.getD i defaultProduct) b)⟩ : Response),
        ps.set i (mergeProduct (ps.getD i defaultProduct) b)) ∧
    (mergeProduct (ps.getD i defaultProduct) b).id = b.id.getD (ps.getD i defaultProduct).id ∧
    (mergeProduct (ps.getD i defaultProduct) b).name = b.name.getD (ps.getD i defaultProduct).name ∧
    (mergeProduct (ps.getD i defaultProduct) b).description =
      b.description.or (ps.getD i defaultProduct).description ∧
    (mergeProduct (ps.getD i defaultProduct) b).price = b.price.getD (ps.getD i defaultProduct).price ∧
    (mergeProduct (ps.getD i defaultProduct) b).category =
      b.category.getD (ps.getD i defaultProduct).category ∧
    (mergeProduct (ps.getD i defaultProduct) b).inStock =
      b.inStock.getD (ps.getD i defaultProduct).inStock := by
  have hstep : handleRequest freshId ⟨Method.PUT, ["api", "products", pid], some "mysecurekey", q, b⟩ ps =
      updateProduct pid b ps := rfl
  refine ⟨?_, rfl, rfl, ?_, rfl, rfl, rfl⟩
  · rw [hstep]
    unfold updateProduct
    rw [h]
  · cases hb : b.description <;> simp [mergeProduct, hb, Option.or]

/-- Witness for C6: updating the seeded product 1 with a body carrying only
name and price. -/
theorem put_merges_onto_existing_witness :
    handleRequest "f" ⟨Method.PUT, ["api", "products", "1"], some "mysecurekey", emptyQuery,
        { emptyBody with name := some "Gaming Laptop", price := some 1500 }⟩ seedProducts =
      ((⟨200, ResBody.product (mergeProduct (seedProducts.getD 0 defaultProduct)
          { emptyBody with name := some "Gaming Laptop", price := some 1500 })⟩ : Response),
        seedProducts.set 0 (mergeProduct (seedProducts.getD 0 defaultProduct)
          { emptyBody with name := some "Gaming Laptop", price := some 1500 })) ∧
    (mergeProduct (seedProducts.getD 0 defaultProduct)
        { emptyBody with name := some "Gaming Laptop", price := some 1500 }).id =
      ({ emptyBody with name := some "Gaming Laptop", price := some 1500 } : Body).id.getD
        (seedProducts.getD 0 defaultProduct).id ∧
    (mergeProduct (seedProducts.getD 0 defaultProduct)
        { emptyBody with name := some "Gaming Laptop", price := some 1500 }).name =
      ({ emptyBody with name := some "Gaming Laptop", price := some 1500 } : Body).name.getD
        (seedProducts.getD 0 defaultProduct).name ∧
    (mergeProduct (seedProducts.getD 0 defaultProduct)
        { emptyBody with name := some "Gaming Laptop", price := some 1500 }).description =
      ({ emptyBody with name := some "Gaming Laptop", price := some 1500 } : Body).description.or
        (seedProducts.getD 0 defaultProduct).description ∧
    (mergeProduct (seedProducts.getD 0 defaultProduct)
        { emptyBody with name := some "Gaming Laptop", price := some 1500 }).price =
      ({ emptyBody with name := some "Gaming Laptop", price := some 1500 } : Body).price.getD
        (seedProducts.getD 0 defaultProduct).price ∧
    (mergeProduct (seedProducts.getD 0 defaultProduct)
        { emptyBody with name := some "Gaming Laptop", price := some 1500 }).category =
      ({ emptyBody with name := some "Gaming Laptop", price := some 1500 } : Body).category.getD
        (seedProducts.getD 0 defaultProduct).category ∧
    (mergeProduct (seedProducts.getD 0 defaultProduct)
        { emptyBody with name := some "Gaming Laptop", price := some 1500 }).inStock =
      ({ emptyBody with name := some "Gaming Laptop", price := some 1500 } : Body).inStock.getD
        (seedProducts.getD 0 defaultProduct).inStock :=
  put_merges_onto_existing "f" emptyQuery _ "1" seedProducts 0 (by decide)

/-- Claim C1 counterexample: a PUT on the seeded product 1 whose body
carries id 2 changes that record's id and leaves the catalog with ids
2, 2, 3 — the id of an existing product is changed and uniqueness is
broken, refuting the claim for arbitrary bodies. -/
theorem put_body_id_breaks_uniqueness :
    ((handleRequest "f" ⟨Method.PUT, ["api", "products", "1"], some "mysecurekey", emptyQuery,
        { emptyBody with id := some "2" }⟩ seedProducts).2.map Product.id) = ["2", "2", "3"] ∧
    ¬ (((handleRequest "f" ⟨Method.PUT, ["api", "products", "1"], some "mysecurekey", emptyQuery,
        { emptyBody with id := some "2" }⟩ seedProducts).2.map Product.id).Nodup) := by decide

/-- Claim C1 (amended): when the catalog ids are unique, the generated id
is fresh and the request body carries no id field, any single request
keeps the ids unique, and a PUT request never changes any product's id. -/
theorem ids_unique_and_put_preserves_ids (freshId : String) (req : Request) (ps : List Product)
    (hnodup : (ps.map Product.id).Nodup)
    (hfresh : freshId ∉ ps.map Product.id)
    (hnoid : req.body.id = none) :
    (((handleRequest freshId req ps).2).map Product.id).Nodup ∧
    (req.method = Method.PUT →
      ((handleRequest freshId req ps).2).map Product.id = ps.map Product.id) := by
  obtain ⟨m, path, key, qr, b⟩ := req
  by_cases hk : key = some "mysecurekey"
  · subst hk
    cases m with
    | GET => exact ⟨hnodup, fun hpm => rfl⟩
    | POST =>
      refine ⟨?_, fun hpm => by cases hpm⟩
      unfold handleRequest
      rw [if_pos rfl]
      unfold dispatch
      dsimp only
      split
      · rcases createProduct_state freshId b ps with hc | hc
        · rw [hc]; exact hnodup
        · rw [hc, List.map_append, List.nodup_append]
          refine ⟨hnodup, by simp, ?_⟩
          simpa [List.disjoint_singleton, newProduct] using hfresh
      · exact hnodup
    | PUT =>
      have hstate : ((handleRequest freshId
          ⟨Method.PUT, path, some "mysecurekey", qr, b⟩ ps).2).map Product.id =
          ps.map Product.id := by
        unfold handleRequest
        rw [if_pos rfl]
        unfold dispatch
        dsimp only
        split
        · exact updateProduct_map_id _ b ps hnoid
        · rfl
      exact ⟨by rw [hstate]; exact hnodup, fun hpm => hstate⟩
    | DELETE =>
      refine ⟨?_, fun hpm => by cases hpm⟩
      unfold handleRequest
      rw [if_pos rfl]
      unfold dispatch
      dsimp only
      split
      · exact List.Nodup.sublist (deleteProduct_map_id_sublist _ ps) hnodup
      · exact hnodup
  · unfold handleRequest
    rw [if_neg (by simpa using hk)]
    exact ⟨hnodup, fun hpm => rfl⟩

/-- Witness for the amended C1: a PUT carrying a body without id on the
seeded catalog, with a fresh generated id available. -/
theorem ids_unique_and_put_preserves_ids_witness :
    (((handleRequest "abc" ⟨Method.PUT, ["api", "products", "1"], some "mysecurekey", emptyQuery,
        { emptyBody with name := some "Gaming Laptop" }⟩ seedProducts).2).map Product.id).Nodup ∧
    ((⟨Method.PUT, ["api", "products", "1"], some "mysecurekey", emptyQuery,
        { emptyBody with name := some "Gaming Laptop" }⟩ : Request).method = Method.PUT →
      (((handleRequest "abc" ⟨Method.PUT, ["api", "products", "1"], some "mysecurekey", emptyQuery,
        { emptyBody with name := some "Gaming Laptop" }⟩ seedProducts).2).map Product.id) =
        seedProducts.map Product.id) :=
  ids_unique_and_put_preserves_ids "abc" _ seedProducts (by decide) (by decide) rfl

/-- jsSlice at nonnegative in-order indices is the mathematical slice:
drop the start index, then take the count. -/
theorem jsSlice_natCast (l : List α) (a c : Nat) :
    jsSlice l (some (a : Int)) (some ((a + c : Nat) : Int)) = (l.drop a).take c := by
  simp only [jsSlice, clampIndex]
  rw [if_neg (by omega), if_neg (by omega), Int.toNat_natCast, Int.toNat_natCast,
    drop_min_length]
  rcases le_or_lt (a + c) l.length with h1 | h1
  · rw [min_eq_left h1, min_eq_left (by omega), Nat.add_sub_cancel_left]
  · rcases le_or_lt l.length a with h2 | h2
    · rw [List.drop_eq_nil_of_le h2]
      simp
    · rw [min_eq_left (le_of_lt h2), min_eq_right (le_of_lt h1)]
      rw [List.take_of_length_le (List.length_drop a l).le,
        List.take_of_length_le (by rw [List.length_drop]; omega)]

/-- Claim C3: when page and limit parse to positive integers P and L, the
listing returns at most L records, exactly the slice of the filtered
sequence starting at (P-1)*L of length L, and an out-of-range page yields
an empty result with no error. -/
theorem pagination_correct (ps : List Product) (q : Query) (P L : Nat)
    (hpage : parsedPage q = some (P : Int)) (hlimit : parsedLimit q = some (L : Int))
    (hP : 1 ≤ P) (hL : 1 ≤ L) :
    (listProducts ps q).results.length ≤ L ∧
    (listProducts ps q).results = ((filteredProducts ps q).drop ((P - 1) * L)).take L ∧
    ((P - 1) * L ≥ (listProducts ps q).total → (listProducts ps q).results = []) := by
  have hres : (listProducts ps q).results = jsSlice (filteredProducts ps q)
      (jsMul (jsSub (parsedPage q) (some 1)) (parsedLimit q))
      (jsAdd (jsMul (jsSub (parsedPage q) (some 1)) (parsedLimit q)) (parsedLimit q)) := rfl
  rw [hpage, hlimit] at hres
  simp only [jsSub, jsMul, jsAdd] at hres
  have hcastA : ((P : Int) - 1) * (L : Int) = (((P - 1) * L : Nat) : Int) := by
    rw [Nat.cast_mul, Nat.cast_sub hP, Nat.cast_one]
  have hcastB : ((P : Int) - 1) * (L : Int) + (L : Int) = (((P - 1) * L + L : Nat) : Int) := by
    rw [Nat.cast_add, Nat.cast_mul, Nat.cast_sub hP, Nat.cast_one]
  rw [hcastB, hcastA, jsSlice_natCast] at hres
  refine ⟨?_, hres, ?_⟩
  · rw [hres, List.length_take]
    exact inf_le_left
  · intro hge
    have htot : (listProducts ps q).total = (filteredProducts ps q).length := rfl
    rw [htot] at hge
    rw [hres, List.drop_eq_nil_of_le (by omega), List.take_nil]

/-- Witness for C3: page 2, limit 1 on the seeded catalog. -/
theorem pagination_correct_witness :
    (listProducts seedProducts ⟨none, none, some "2", some "1"⟩).results.length ≤ 1 ∧
    (listProducts seedProducts ⟨none, none, some "2", some "1"⟩).results =
      ((filteredProducts seedProducts ⟨none, none, some "2", some "1"⟩).drop ((2 - 1) * 1)).take 1 ∧
    ((2 - 1) * 1 ≥ (listProducts seedProducts ⟨none, none, some "2", some "1"⟩).total →
      (listProducts seedProducts ⟨none, none, some "2", some "1"⟩).results = []) :=
  pagination_correct seedProducts ⟨none, none, some "2", some "1"⟩ 2 1 (by decide) (by decide)
    (by decide) (by decide)

/-- Claim C4: the listing total counts exactly the records matching the
given filters, and every returned record matches the category filter
(case-insensitive equality) and the search filter (case-insensitive name
substring) when those parameters are given. -/
theorem filters_correct (ps : List Product) (q : Query)
    (h : truthyOptStr q.category = true ∨ truthyOptStr q.search = true) :
    (listProducts ps q).total = (ps.filter (matchesQueryFilters q)).length ∧
    (listProducts ps q).results.all (matchesQueryFilters q) = true := by
  constructor
  · show (filteredProducts ps q).length = _
    rw [filteredProducts_eq_filter]
  · rw [List.all_eq_true]
    intro p hp
    have hp2 : p ∈ filteredProducts ps q := by
      have hs : (listProducts ps q).results = jsSlice (filteredProducts ps q)
          (jsMul (jsSub (parsedPage q) (some 1)) (parsedLimit q))
          (jsAdd (jsMul (jsSub (parsedPage q) (some 1)) (parsedLimit q)) (parsedLimit q)) := rfl
      rw [hs] at hp
      simp only [jsSlice] at hp
      exact List.drop_subset _ _ (List.take_subset _ _ hp)
    rw [filteredProducts_eq_filter] at hp2
    exact (List.mem_filter.mp hp2).2

/-- Witness for C4: the category filter electronics on the seeded catalog. -/
theorem filters_correct_witness :
    (listProducts seedProducts ⟨some "electronics", none, none, none⟩).total =
      (seedProducts.filter (matchesQueryFilters ⟨some "electronics", none, none, none⟩)).length ∧
    (listProducts seedProducts ⟨some "electronics", none, none, none⟩).results.all
      (matchesQueryFilters ⟨some "electronics", none, none, none⟩) = true :=
  filters_correct seedProducts ⟨some "electronics", none, none, none⟩ (Or.inl (by decide))

end ProductApi
